import Mathlib

/-!
# profilingutil: lifecycle of the profiler controller and of its destinations

A shallow embedding of the Go package `profilingutil`:

* `profiling.go` (build tag `profile`): the enabled `StartProfilers` / `StopProfilers`
  over the three package-level writer slots;
* `profilng_disabled.go` (build tag `!profile`): the logging no-op variant;
* `profilingutil/common.go`: `Config`, `Config.CloseAll`, `NewConfigFromPaths`.

The package-level variables become an explicit `State` that is passed in and returned.
Calls into the Go runtime and the operating system (`pprof.StartCPUProfile`,
`pprof.StopCPUProfile`, `runtime.GC`, `pprof.WriteHeapProfile`,
`pprof.Lookup("goroutine").WriteTo`, `os.Create`, `Close`, `log.Printf`) are recorded, in
program order, in a trace of `Event`s; the result of every fallible call is supplied by an
oracle argument, so that every theorem quantifies over all outcomes.
-/

namespace Profilingutil

/-! ## Data model -/

/-- A Go `error` value: `none` is `nil`, `some msg` is a non-nil error whose text is `msg`. -/
abbrev GoError := Option String

/-- An open `*os.File`, identified by its descriptor. -/
structure File where
  fd : Nat
  deriving DecidableEq, Repr

/-- A non-nil `io.Writer` interface value. Its dynamic type is either `*os.File` (which has a
`Close` method) or some other type, which may or may not implement `io.Closer`. -/
inductive Writer where
  | osFile (f : File)
  | other (id : Nat) (closer : Bool)
  deriving DecidableEq, Repr

/-- The type assertion `w.(io.Closer)` succeeds exactly for these writers. -/
def Writer.isCloser : Writer → Bool
  | .osFile _ => true
  | .other _ c => c

/-- The three profile kinds, in the order in which the source handles them. -/
inductive Kind where
  | cpu
  | heap
  | goroutine
  deriving DecidableEq, Repr

/-- The `name` strings passed to `closeWriter` and `createAndAssign` in `common.go`. -/
def Kind.label : Kind → String
  | .cpu => "CPU profile"
  | .heap => "Heap profile"
  | .goroutine => "Goroutine profile"

/-- The constant `packageName` of `common.go`. -/
def packageName : String := "profilingutil"

/-- The struct `Config` of `common.go`: three `io.Writer` fields, `none` being `nil`. -/
structure Config where
  CPUProfileWriter : Option Writer
  HeapProfileWriter : Option Writer
  GoroutineProfileWriter : Option Writer
  deriving DecidableEq, Repr

/-- The zero value `Config{}`. -/
def Config.zero : Config :=
  { CPUProfileWriter := none, HeapProfileWriter := none, GoroutineProfileWriter := none }

/-- The package-level variables `cpuWriter`, `heapWriter`, `goroutineWriter` of
`profiling.go`. -/
structure State where
  cpuWriter : Option Writer
  heapWriter : Option Writer
  goroutineWriter : Option Writer
  deriving DecidableEq, Repr

/-- The state at process start: every package-level variable holds its zero value `nil`. -/
def State.empty : State :=
  { cpuWriter := none, heapWriter := none, goroutineWriter := none }

/-- One observable action of the package, in program order. -/
inductive Event where
  -- a line printed with log.Printf
  | log (line : String)
  -- the call pprof.StartCPUProfile(w)
  | startCPUProfile (w : Writer)
  -- the call pprof.StopCPUProfile()
  | stopCPUProfile
  -- the call runtime.GC()
  | gc
  -- the call pprof.WriteHeapProfile(w)
  | writeHeapProfile (w : Writer)
  -- the call pprof.Lookup("goroutine").WriteTo(w, 0)
  | writeGoroutineProfile (w : Writer)
  -- the call os.Create(path)
  | osCreate (path : String)
  -- the call Close() on the writer w
  | close (w : Writer)
  deriving DecidableEq, Repr

/-- Log lines are diagnostics; every other event is a runtime or operating-system operation. -/
def Event.isLog : Event → Bool
  | .log _ => true
  | _ => false

/-- The runtime and operating-system operations of a trace: the trace without its log lines. -/
def ops (t : List Event) : List Event :=
  t.filter (fun e => !e.isLog)

/-- The outcomes of the fallible runtime calls made by the enabled controller. Each call site
runs at most once per call of `StartProfilers` or `StopProfilers`, so a function of the
argument describes every possible outcome. -/
structure Runtime where
  -- result of pprof.StartCPUProfile(w)
  startCPUProfile : Writer → GoError
  -- result of pprof.WriteHeapProfile(w)
  writeHeapProfile : Writer → GoError
  -- result of pprof.Lookup("goroutine").WriteTo(w, 0)
  writeGoroutineProfile : Writer → GoError

/-- What a call of `StartProfilers` leaves behind: the package-level variables, the returned
`error`, and the events it performed. -/
structure StartResult where
  state : State
  err : GoError
  trace : List Event
  deriving DecidableEq, Repr

/-- What a call of `StopProfilers` leaves behind (it has no return value). -/
structure StopResult where
  state : State
  trace : List Event
  deriving DecidableEq, Repr

/-! ## The enabled controller (`profiling.go`) -/

namespace Enabled

/-- Lines 38-42 of `StartProfilers`: the note about the snapshots written on exit, then
`return nil`. -/
def startTail (st : State) (t : List Event) : StartResult :=
  let t1 :=
    if st.heapWriter ≠ none ∨ st.goroutineWriter ≠ none then
      t ++ [Event.log (packageName ++ ": Heap and Goroutine profiles will be written on exit.")]
    else t
  { state := st, err := none, trace := t1 }

/-- The function `StartProfilers` of `profiling.go`. -/
def StartProfilers (rt : Runtime) (cfg : Config) (st : State) : StartResult :=
  let t0 := [Event.log (packageName ++ ": Profiling enabled: Setting up profilers.")]
  let st1 : State :=
    { st with
      cpuWriter := cfg.CPUProfileWriter
      heapWriter := cfg.HeapProfileWriter
      goroutineWriter := cfg.GoroutineProfileWriter }
  match st1.cpuWriter with
  | some w =>
    match rt.startCPUProfile w with
    | some err =>
      { state := { st1 with cpuWriter := none }
        err := some (packageName ++ ": failed to start CPU profile: " ++ err)
        trace := t0 ++ [Event.startCPUProfile w,
          Event.log (packageName ++ ": could not start CPU profile: " ++ err)] }
    | none =>
      startTail st1
        (t0 ++ [Event.startCPUProfile w, Event.log (packageName ++ ": CPU profiling started.")])
  | none =>
    startTail st1
      (t0 ++ [Event.log
        (packageName ++ ": CPUProfileWriter not provided, skipping CPU profiling.")])

/-- Lines 49-54 of `StopProfilers`: the CPU block. -/
def stopCPU (r : StopResult) : StopResult :=
  match r.state.cpuWriter with
  | some _ =>
    { state := { r.state with cpuWriter := none }
      trace := r.trace ++
        [Event.stopCPUProfile, Event.log (packageName ++ ": CPU profile written.")] }
  | none => r

/-- Lines 56-65 of `StopProfilers`: the heap block. -/
def stopHeap (rt : Runtime) (r : StopResult) : StopResult :=
  match r.state.heapWriter with
  | some w =>
    let line :=
      match rt.writeHeapProfile w with
      | some err => packageName ++ ": could not write heap profile: " ++ err
      | none => packageName ++ ": Heap profile written."
    { state := { r.state with heapWriter := none }
      trace := r.trace ++ [Event.gc, Event.writeHeapProfile w, Event.log line] }
  | none => r

/-- Lines 67-75 of `StopProfilers`: the goroutine block. -/
def stopGoroutine (rt : Runtime) (r : StopResult) : StopResult :=
  match r.state.goroutineWriter with
  | some w =>
    let line :=
      match rt.writeGoroutineProfile w with
      | some err => packageName ++ ": could not write goroutine profile: " ++ err
      | none => packageName ++ ": Goroutine profile written."
    { state := { r.state with goroutineWriter := none }
      trace := r.trace ++ [Event.writeGoroutineProfile w, Event.log line] }
  | none => r

/-- The function `StopProfilers` of `profiling.go`. -/
def StopProfilers (rt : Runtime) (st : State) : StopResult :=
  let r0 : StopResult :=
    { state := st
      trace := [Event.log (packageName ++ ": Profiling enabled: Tearing down profilers.")] }
  stopGoroutine rt (stopHeap rt (stopCPU r0))

end Enabled

/-! ## The disabled controller (`profilng_disabled.go`) -/

namespace Disabled

/-- The function `StartProfilers` of `profilng_disabled.go`. The file declares no
package-level variable, so the state is returned as it was received. -/
def StartProfilers (_cfg : Config) (st : State) : StartResult :=
  { state := st
    err := none
    trace := [Event.log (packageName ++ ": Profiling disabled: Skipping profiler setup.")] }

/-- The function `StopProfilers` of `profilng_disabled.go`. -/
def StopProfilers (st : State) : StopResult :=
  { state := st
    trace := [Event.log (packageName ++ ": Profiling disabled: Skipping profiler teardown.")] }

end Disabled

/-! ## Destinations (`profilingutil/common.go`) -/

/-- The local state of `CloseAll`: the slice `closeErrors` and the events so far. -/
structure CloseAcc where
  closeErrors : List String
  trace : List Event
  deriving DecidableEq, Repr

/-- The closure `closeWriter` of `CloseAll`. The oracle `closeRes` gives the result of the
`Close()` call made for the field of kind `k`. -/
def closeWriter (closeRes : Kind → Writer → GoError) (k : Kind) (w : Option Writer)
    (acc : CloseAcc) : CloseAcc :=
  match w with
  | some x =>
    if x.isCloser then
      match closeRes k x with
      | some err =>
        { closeErrors := acc.closeErrors ++
            ["failed to close " ++ k.label ++ " writer: " ++ err]
          trace := acc.trace ++ [Event.close x] }
      | none =>
        { closeErrors := acc.closeErrors
          trace := acc.trace ++
            [Event.close x, Event.log (packageName ++ ": Closed " ++ k.label ++ " writer.")] }
    else acc
  | none => acc

/-- The method `Config.CloseAll` of `common.go`. It has no return value; the result is the
trace of what it did. -/
def Config.CloseAll (closeRes : Kind → Writer → GoError) (c : Config) : List Event :=
  let a0 : CloseAcc :=
    { closeErrors := [], trace := [Event.log (packageName ++ ": Closing profiling writers.")] }
  let a1 := closeWriter closeRes Kind.cpu c.CPUProfileWriter a0
  let a2 := closeWriter closeRes Kind.heap c.HeapProfileWriter a1
  let a3 := closeWriter closeRes Kind.goroutine c.GoroutineProfileWriter a2
  a3.trace ++ a3.closeErrors.map
    (fun e => Event.log (packageName ++ ": Error during writer close: " ++ e))

/-- Writes through the pointer `writerField` of `createAndAssign`. -/
def Config.set (c : Config) (k : Kind) (w : Writer) : Config :=
  match k with
  | .cpu => { c with CPUProfileWriter := some w }
  | .heap => { c with HeapProfileWriter := some w }
  | .goroutine => { c with GoroutineProfileWriter := some w }

/-- The closure `createAndAssign` of `NewConfigFromPaths`: the updated `cfg`, the returned
`error`, and the events. The oracle `osCreate` gives the result of `os.Create(path)` at the
call made for kind `k`. -/
def createAndAssign (osCreate : Kind → String → Except String File) (cfg : Config)
    (path : String) (k : Kind) : Config × GoError × List Event :=
  if path ≠ "" then
    match osCreate k path with
    | .error e =>
      (cfg, some (packageName ++ ": failed to create " ++ k.label ++ " file " ++ path ++
        ": " ++ e), [Event.osCreate path])
    | .ok file => (cfg.set k (Writer.osFile file), none, [Event.osCreate path])
  else (cfg, none, [])

/-- What a call of `NewConfigFromPaths` produces. `panicked` is set when an unchecked type
assertion `.(io.Closer)` fails; the two return values are then never delivered. -/
structure NewConfigResult where
  cfg : Config
  err : GoError
  trace : List Event
  panicked : Bool
  deriving DecidableEq, Repr

/-- The statement `if w != nil { w.(io.Closer).Close() }` of the rollback paths: the events
and whether the unchecked assertion panicked. The result of `Close()` is discarded. -/
def rollbackClose (w : Option Writer) : List Event × Bool :=
  match w with
  | some x => if x.isCloser then ([Event.close x], false) else ([], true)
  | none => ([], false)

/-- The function `NewConfigFromPaths` of `common.go`. -/
def NewConfigFromPaths (osCreate : Kind → String → Except String File)
    (cpuPath heapPath goroutinePath : String) : NewConfigResult :=
  let cfg0 := Config.zero
  match createAndAssign osCreate cfg0 cpuPath Kind.cpu with
  | (_, some err, t1) =>
    { cfg := Config.zero, err := some err, trace := t1, panicked := false }
  | (cfg1, none, t1) =>
    match createAndAssign osCreate cfg1 heapPath Kind.heap with
    | (cfg2, some err, t2) =>
      match rollbackClose cfg2.CPUProfileWriter with
      | (_, true) =>
        { cfg := Config.zero, err := none, trace := t1 ++ t2, panicked := true }
      | (c1, false) =>
        { cfg := Config.zero, err := some err, trace := t1 ++ t2 ++ c1, panicked := false }
    | (cfg2, none, t2) =>
      match createAndAssign osCreate cfg2 goroutinePath Kind.goroutine with
      | (cfg3, some err, t3) =>
        match rollbackClose cfg3.CPUProfileWriter with
        | (_, true) =>
          { cfg := Config.zero, err := none, trace := t1 ++ t2 ++ t3, panicked := true }
        | (c1, false) =>
          match rollbackClose cfg3.HeapProfileWriter with
          | (_, true) =>
            { cfg := Config.zero, err := none, trace := t1 ++ t2 ++ t3 ++ c1,
              panicked := true }
          | (c2, false) =>
            { cfg := Config.zero, err := some err, trace := t1 ++ t2 ++ t3 ++ c1 ++ c2,
              panicked := false }
      | (cfg3, none, t3) =>
        { cfg := cfg3, err := none, trace := t1 ++ t2 ++ t3, panicked := false }

/-! ## Basic facts about traces -/

theorem ops_append (a b : List Event) : ops (a ++ b) = ops a ++ ops b := by
  simp [ops]

theorem ops_log (l : String) : ops [Event.log l] = [] := by
  simp [ops, Event.isLog]

/-! ## Facts about the log lines -/

theorem str_append_left_cancel (a b c : String) : a ++ b = a ++ c ↔ b = c := by
  simp [String.ext_iff]

theorem cpu_written_ne_heap_failure (err : String) :
    ¬ ": CPU profile written." = ": could not write heap profile: " ++ err := by
  intro h
  have h2 := congrArg (fun s => s.data.get? 2) h
  simp [String.data_append] at h2

theorem cpu_written_ne_goroutine_failure (err : String) :
    ¬ ": CPU profile written." = ": could not write goroutine profile: " ++ err := by
  intro h
  have h2 := congrArg (fun s => s.data.get? 2) h
  simp [String.data_append] at h2

theorem mem_ops (e : Event) (t : List Event) : e ∈ ops t ↔ e ∈ t ∧ e.isLog = false := by
  simp [ops]

/-! ## Concrete inputs used to exercise the theorems -/

/-- A writer that is not a closer, standing for an in-memory buffer. -/
def bufA : Writer := Writer.other 1 false

/-- A second in-memory buffer. -/
def bufB : Writer := Writer.other 2 false

/-- A writer with a `Close` method that is not a file. -/
def pipeC : Writer := Writer.other 3 true

/-- A configuration requesting all three kinds. -/
def cfgAll : Config :=
  { CPUProfileWriter := some bufA, HeapProfileWriter := some bufB,
    GoroutineProfileWriter := some pipeC }

/-- A runtime in which CPU profiling is already in use and the heap write fails. -/
def rtBusy : Runtime :=
  { startCPUProfile := fun _ => some "cpu profiling already in use"
    writeHeapProfile := fun _ => some "short write"
    writeGoroutineProfile := fun _ => none }

/-- A runtime in which every call succeeds. -/
def rtFine : Runtime :=
  { startCPUProfile := fun _ => none
    writeHeapProfile := fun _ => none
    writeGoroutineProfile := fun _ => none }

/-- The scenario of the specification: CPU and goroutine requested, heap left out. -/
def cfgNoHeap : Config :=
  { CPUProfileWriter := some bufA, HeapProfileWriter := none,
    GoroutineProfileWriter := some pipeC }

/-- An operating system on which the directory of the heap profile is not writable. -/
def osHeapUnwritable : Kind → String → Except String File :=
  fun k path =>
    if path = "/readonly/heap.prof" then Except.error "permission denied"
    else
      match k with
      | .cpu => Except.ok { fd := 3 }
      | .heap => Except.ok { fd := 4 }
      | .goroutine => Except.ok { fd := 5 }

/-! ## Vocabulary for the claims about `NewConfigFromPaths` -/

/-- The `os.Create` call made for a path: none for the empty path. -/
def createAttempt (path : String) : List Event :=
  if path ≠ "" then [Event.osCreate path] else []

/-- Creating the file of kind `k` fails: the path is not empty and `os.Create` returns an
error for it. -/
def createFails (osCreate : Kind → String → Except String File) (k : Kind) (path : String) :
    Bool :=
  if path ≠ "" then
    match osCreate k path with
    | .error _ => true
    | .ok _ => false
  else false

/-- The file opened for kind `k`, if any: the path is not empty and `os.Create` succeeded. -/
def openedFile (osCreate : Kind → String → Except String File) (k : Kind) (path : String) :
    Option File :=
  if path ≠ "" then
    match osCreate k path with
    | .error _ => none
    | .ok f => some f
  else none

/-- The `Close` call on an opened file, nothing for the absence of one. -/
def closeOpened (f : Option File) : List Event :=
  f.elim [] (fun x => [Event.close (Writer.osFile x)])

/-! ## The enabled controller: what `StartProfilers` and `StopProfilers` do -/

namespace Enabled

theorem StopProfilers_state (rt : Runtime) (st : State) :
    (StopProfilers rt st).state = State.empty := by
  rcases st with ⟨c, h, g⟩
  cases c <;> cases h <;> cases g <;>
    simp [StopProfilers, stopCPU, stopHeap, stopGoroutine, State.empty]

theorem StopProfilers_ops (rt : Runtime) (st : State) :
    ops (StopProfilers rt st).trace =
      st.cpuWriter.elim [] (fun _ => [Event.stopCPUProfile]) ++
      st.heapWriter.elim [] (fun w => [Event.gc, Event.writeHeapProfile w]) ++
      st.goroutineWriter.elim [] (fun w => [Event.writeGoroutineProfile w]) := by
  rcases st with ⟨c, h, g⟩
  cases c <;> cases h <;> cases g <;>
    simp [StopProfilers, stopCPU, stopHeap, stopGoroutine, ops, Event.isLog]

theorem StartProfilers_ops (rt : Runtime) (cfg : Config) (st : State) :
    ops (StartProfilers rt cfg st).trace =
      cfg.CPUProfileWriter.elim [] (fun w => [Event.startCPUProfile w]) := by
  rcases cfg with ⟨c, h, g⟩
  rcases c with _ | w
  · by_cases hh : h = none ∧ g = none
    · simp [StartProfilers, startTail, ops, Event.isLog, hh]
    · have hh2 : ¬ h = none ∨ ¬ g = none := by tauto
      simp [StartProfilers, startTail, ops, Event.isLog, hh2]
  · cases hs : rt.startCPUProfile w
    · by_cases hh : h = none ∧ g = none
      · simp [StartProfilers, startTail, ops, Event.isLog, hh, hs]
      · have hh2 : ¬ h = none ∨ ¬ g = none := by tauto
        simp [StartProfilers, startTail, ops, Event.isLog, hh2, hs]
    · simp [StartProfilers, ops, Event.isLog, hs]

theorem StartProfilers_state_of_absent (rt : Runtime) (cfg : Config) (st : State)
    (hw : cfg.CPUProfileWriter = none) :
    (StartProfilers rt cfg st).state =
      { cpuWriter := none, heapWriter := cfg.HeapProfileWriter,
        goroutineWriter := cfg.GoroutineProfileWriter } := by
  simp [StartProfilers, startTail, hw]

theorem StartProfilers_state_of_started (rt : Runtime) (cfg : Config) (st : State)
    (w : Writer) (hw : cfg.CPUProfileWriter = some w) (he : rt.startCPUProfile w = none) :
    (StartProfilers rt cfg st).state =
      { cpuWriter := some w, heapWriter := cfg.HeapProfileWriter,
        goroutineWriter := cfg.GoroutineProfileWriter } := by
  simp [StartProfilers, startTail, hw, he]

theorem StartProfilers_state_of_fail (rt : Runtime) (cfg : Config) (st : State) (w : Writer)
    (e : String) (hw : cfg.CPUProfileWriter = some w) (he : rt.startCPUProfile w = some e) :
    (StartProfilers rt cfg st).state =
      { cpuWriter := none, heapWriter := cfg.HeapProfileWriter,
        goroutineWriter := cfg.GoroutineProfileWriter } := by
  simp [StartProfilers, hw, he]

end Enabled

/-! ## Claims about the enabled controller -/

/-- C1: the enabled `StartProfilers` returns `nil` if and only if the CPU destination is
absent or starting the CPU profile succeeded, and for a fixed CPU destination and CPU-start
outcome the returned value is the same whatever the heap and goroutine destinations (and
the previous contents of the slots) are. -/
theorem start_returns_nil_iff (rt : Runtime) (cfg : Config) (st : State) :
    ((Enabled.StartProfilers rt cfg st).err = none ↔
      (cfg.CPUProfileWriter = none ∨
        ∃ w, cfg.CPUProfileWriter = some w ∧ rt.startCPUProfile w = none)) ∧
    ∀ (h g : Option Writer) (st2 : State),
      (Enabled.StartProfilers rt
        { CPUProfileWriter := cfg.CPUProfileWriter, HeapProfileWriter := h,
          GoroutineProfileWriter := g } st2).err =
      (Enabled.StartProfilers rt cfg st).err := by
  rcases cfg with ⟨c, h0, g0⟩
  constructor
  · cases c with
    | none => simp [Enabled.StartProfilers, Enabled.startTail]
    | some w =>
      cases hs : rt.startCPUProfile w <;>
        simp [Enabled.StartProfilers, Enabled.startTail, hs]
  · intro h g st2
    cases c with
    | none => simp [Enabled.StartProfilers, Enabled.startTail]
    | some w =>
      cases hs : rt.startCPUProfile w <;>
        simp [Enabled.StartProfilers, Enabled.startTail, hs]

/-- C2: when the CPU destination is present and starting the CPU profile fails, the CPU
slot is `none` after `StartProfilers` returns, and an immediately following `StopProfilers`
neither calls `pprof.StopCPUProfile` nor logs the line "CPU profile written.". -/
theorem start_failure_clears_cpu_slot (rt rt2 : Runtime) (cfg : Config) (st : State)
    (w : Writer) (e : String) (hw : cfg.CPUProfileWriter = some w)
    (he : rt.startCPUProfile w = some e) :
    (Enabled.StartProfilers rt cfg st).state.cpuWriter = none ∧
    Event.stopCPUProfile ∉
      (Enabled.StopProfilers rt2 (Enabled.StartProfilers rt cfg st).state).trace ∧
    Event.log (packageName ++ ": CPU profile written.") ∉
      (Enabled.StopProfilers rt2 (Enabled.StartProfilers rt cfg st).state).trace := by
  rw [Enabled.StartProfilers_state_of_fail rt cfg st w e hw he]
  refine ⟨rfl, ?_, ?_⟩
  · cases cfg.HeapProfileWriter <;> cases cfg.GoroutineProfileWriter <;>
      simp [Enabled.StopProfilers, Enabled.stopCPU, Enabled.stopHeap, Enabled.stopGoroutine]
  · rcases cfg with ⟨c, h, g⟩
    rcases h with _ | h <;> rcases g with _ | g
    · simp [Enabled.StopProfilers, Enabled.stopCPU, Enabled.stopHeap, Enabled.stopGoroutine,
        str_append_left_cancel]
    · cases hg : rt2.writeGoroutineProfile g <;>
        simp [Enabled.StopProfilers, Enabled.stopCPU, Enabled.stopHeap,
          Enabled.stopGoroutine, str_append_left_cancel, String.append_assoc, hg,
          cpu_written_ne_goroutine_failure]
    · cases hh : rt2.writeHeapProfile h <;>
        simp [Enabled.StopProfilers, Enabled.stopCPU, Enabled.stopHeap,
          Enabled.stopGoroutine, str_append_left_cancel, String.append_assoc, hh,
          cpu_written_ne_heap_failure]
    · cases hh : rt2.writeHeapProfile h <;> cases hg : rt2.writeGoroutineProfile g <;>
        simp [Enabled.StopProfilers, Enabled.stopCPU, Enabled.stopHeap,
          Enabled.stopGoroutine, str_append_left_cancel, String.append_assoc, hh, hg,
          cpu_written_ne_heap_failure, cpu_written_ne_goroutine_failure]

/-- Witness for C2: CPU profiling already in use, all three kinds requested. -/
theorem start_failure_clears_cpu_slot_witness :
    cfgAll.CPUProfileWriter = some bufA ∧
    rtBusy.startCPUProfile bufA = some "cpu profiling already in use" ∧
    (Enabled.StartProfilers rtBusy cfgAll State.empty).state.cpuWriter = none ∧
    Event.stopCPUProfile ∉
      (Enabled.StopProfilers rtFine
        (Enabled.StartProfilers rtBusy cfgAll State.empty).state).trace ∧
    Event.log (packageName ++ ": CPU profile written.") ∉
      (Enabled.StopProfilers rtFine
        (Enabled.StartProfilers rtBusy cfgAll State.empty).state).trace :=
  ⟨rfl, rfl,
    start_failure_clears_cpu_slot rtBusy rtFine cfgAll State.empty bufA
      "cpu profiling already in use" rfl rfl⟩

/-- C3: whatever the three slots hold and whatever the outcomes of the heap and goroutine
snapshot writes, all three slots are `none` after `StopProfilers` returns; hence
`StartProfilers` followed by `StopProfilers` leaves the state empty for every `Config`,
every previous state and every outcome. -/
theorem stop_clears_all_slots (rt rt2 : Runtime) (cfg : Config) (st : State) :
    ((Enabled.StopProfilers rt st).state.cpuWriter = none ∧
      (Enabled.StopProfilers rt st).state.heapWriter = none ∧
      (Enabled.StopProfilers rt st).state.goroutineWriter = none) ∧
    (Enabled.StopProfilers rt2 (Enabled.StartProfilers rt cfg st).state).state =
      State.empty := by
  rw [Enabled.StopProfilers_state, Enabled.StopProfilers_state]
  exact ⟨⟨rfl, rfl, rfl⟩, rfl⟩

/-- C4: the runtime operations performed by `StopProfilers` are exactly, in this order:
`pprof.StopCPUProfile` if the CPU slot is recorded; `runtime.GC` followed by
`pprof.WriteHeapProfile` to the heap destination if the heap slot is recorded; the
goroutine-profile write to the goroutine destination if the goroutine slot is recorded.
The sequence does not depend on the outcome of any write. -/
theorem stop_operation_sequence (rt : Runtime) (st : State) :
    ops (Enabled.StopProfilers rt st).trace =
      st.cpuWriter.elim [] (fun _ => [Event.stopCPUProfile]) ++
      st.heapWriter.elim [] (fun w => [Event.gc, Event.writeHeapProfile w]) ++
      st.goroutineWriter.elim [] (fun w => [Event.writeGoroutineProfile w]) :=
  Enabled.StopProfilers_ops rt st

/-- C6: `StopProfilers` on the empty state only logs its teardown line: it performs no
runtime operation and leaves the state empty. Consequently a second `StopProfilers` right
after a first one performs no operation and changes nothing, so that two calls in a row
have the final state and the operations of one. -/
theorem stop_on_empty_is_noop (rt rt2 : Runtime) (st : State) :
    (Enabled.StopProfilers rt State.empty).trace =
      [Event.log (packageName ++ ": Profiling enabled: Tearing down profilers.")] ∧
    ops (Enabled.StopProfilers rt State.empty).trace = [] ∧
    (Enabled.StopProfilers rt State.empty).state = State.empty ∧
    ops (Enabled.StopProfilers rt2 (Enabled.StopProfilers rt st).state).trace = [] ∧
    (Enabled.StopProfilers rt2 (Enabled.StopProfilers rt st).state).state =
      (Enabled.StopProfilers rt st).state ∧
    ops ((Enabled.StopProfilers rt st).trace ++
        (Enabled.StopProfilers rt2 (Enabled.StopProfilers rt st).state).trace) =
      ops (Enabled.StopProfilers rt st).trace := by
  have h2 : ops (Enabled.StopProfilers rt2 (Enabled.StopProfilers rt st).state).trace = [] := by
    rw [Enabled.StopProfilers_ops, Enabled.StopProfilers_state]
    rfl
  refine ⟨rfl, ?_, ?_, h2, ?_, ?_⟩
  · rw [Enabled.StopProfilers_ops]; rfl
  · rw [Enabled.StopProfilers_state]
  · rw [Enabled.StopProfilers_state, Enabled.StopProfilers_state]
  · rw [ops_append, h2, List.append_nil]

/-- C10: when the CPU destination is present and starting the CPU profile fails,
`StartProfilers` has attempted the start on the destination of the `Config`, returns a
non-nil error, and leaves the CPU slot `none` while the heap and goroutine slots hold the
destinations of the `Config`; a following `StopProfilers` then performs exactly the GC and
heap write (if the heap destination is present) and the goroutine write (if the goroutine
destination is present), to those destinations. -/
theorem start_failure_keeps_snapshot_slots (rt rt2 : Runtime) (cfg : Config) (st : State)
    (w : Writer) (e : String) (hw : cfg.CPUProfileWriter = some w)
    (he : rt.startCPUProfile w = some e) :
    (Enabled.StartProfilers rt cfg st).err ≠ none ∧
    ops (Enabled.StartProfilers rt cfg st).trace = [Event.startCPUProfile w] ∧
    (Enabled.StartProfilers rt cfg st).state.cpuWriter = none ∧
    (Enabled.StartProfilers rt cfg st).state.heapWriter = cfg.HeapProfileWriter ∧
    (Enabled.StartProfilers rt cfg st).state.goroutineWriter = cfg.GoroutineProfileWriter ∧
    ops (Enabled.StopProfilers rt2 (Enabled.StartProfilers rt cfg st).state).trace =
      cfg.HeapProfileWriter.elim [] (fun x => [Event.gc, Event.writeHeapProfile x]) ++
      cfg.GoroutineProfileWriter.elim [] (fun x => [Event.writeGoroutineProfile x]) := by
  rw [Enabled.StopProfilers_ops, Enabled.StartProfilers_ops,
    Enabled.StartProfilers_state_of_fail rt cfg st w e hw he]
  refine ⟨?_, ?_, rfl, rfl, rfl, ?_⟩
  · simp [Enabled.StartProfilers, hw, he]
  · simp [hw]
  · simp

/-- Witness for C10: CPU profiling already in use, all three kinds requested, slots
previously empty. -/
theorem start_failure_keeps_snapshot_slots_witness :
    cfgAll.CPUProfileWriter = some bufA ∧
    rtBusy.startCPUProfile bufA = some "cpu profiling already in use" ∧
    (Enabled.StartProfilers rtBusy cfgAll State.empty).err ≠ none ∧
    ops (Enabled.StartProfilers rtBusy cfgAll State.empty).trace =
      [Event.startCPUProfile bufA] ∧
    (Enabled.StartProfilers rtBusy cfgAll State.empty).state.cpuWriter = none ∧
    (Enabled.StartProfilers rtBusy cfgAll State.empty).state.heapWriter =
      cfgAll.HeapProfileWriter ∧
    (Enabled.StartProfilers rtBusy cfgAll State.empty).state.goroutineWriter =
      cfgAll.GoroutineProfileWriter ∧
    ops (Enabled.StopProfilers rtBusy
        (Enabled.StartProfilers rtBusy cfgAll State.empty).state).trace =
      cfgAll.HeapProfileWriter.elim [] (fun x => [Event.gc, Event.writeHeapProfile x]) ++
      cfgAll.GoroutineProfileWriter.elim [] (fun x => [Event.writeGoroutineProfile x]) :=
  ⟨rfl, rfl,
    start_failure_keeps_snapshot_slots rtBusy rtBusy cfgAll State.empty bufA
      "cpu profiling already in use" rfl rfl⟩

/-- C5: starting from the empty state, for every `Config` (hence for each of the 8
present/absent combinations) and every outcome, the runtime operations of `StartProfilers`
followed by `StopProfilers` are built from the present destinations only: a CPU start (and,
if it succeeded, a CPU stop) for a present CPU destination, a GC and a heap write for a
present heap destination, a goroutine write for a present goroutine destination. So a kind
whose destination is absent sees no operation and no write at all, and an absent CPU
destination makes `StartProfilers` return `nil`. The value returned by `StartProfilers` is
determined by the CPU destination and the outcome of the CPU start alone, and it is a
non-nil error only when the CPU destination is present and its start failed: no error is
ever reported on account of an absent kind. -/
theorem absent_kinds_untouched (rt rt2 : Runtime) (cfg : Config) :
    ops ((Enabled.StartProfilers rt cfg State.empty).trace ++
        (Enabled.StopProfilers rt2 (Enabled.StartProfilers rt cfg State.empty).state).trace) =
      cfg.CPUProfileWriter.elim [] (fun w => [Event.startCPUProfile w]) ++
      cfg.CPUProfileWriter.elim []
        (fun w => if rt.startCPUProfile w = none then [Event.stopCPUProfile] else []) ++
      cfg.HeapProfileWriter.elim [] (fun w => [Event.gc, Event.writeHeapProfile w]) ++
      cfg.GoroutineProfileWriter.elim [] (fun w => [Event.writeGoroutineProfile w]) ∧
    (cfg.CPUProfileWriter = none →
      (Enabled.StartProfilers rt cfg State.empty).err = none ∧
      ∀ e ∈ (Enabled.StartProfilers rt cfg State.empty).trace ++
          (Enabled.StopProfilers rt2 (Enabled.StartProfilers rt cfg State.empty).state).trace,
        e ≠ Event.stopCPUProfile ∧ ∀ w, e ≠ Event.startCPUProfile w) ∧
    (cfg.HeapProfileWriter = none →
      ∀ e ∈ (Enabled.StartProfilers rt cfg State.empty).trace ++
          (Enabled.StopProfilers rt2 (Enabled.StartProfilers rt cfg State.empty).state).trace,
        e ≠ Event.gc ∧ ∀ w, e ≠ Event.writeHeapProfile w) ∧
    (cfg.GoroutineProfileWriter = none →
      ∀ e ∈ (Enabled.StartProfilers rt cfg State.empty).trace ++
          (Enabled.StopProfilers rt2 (Enabled.StartProfilers rt cfg State.empty).state).trace,
        ∀ w, e ≠ Event.writeGoroutineProfile w) ∧
    (Enabled.StartProfilers rt cfg State.empty).err =
      cfg.CPUProfileWriter.elim none (fun w =>
        (rt.startCPUProfile w).map
          (fun e => packageName ++ ": failed to start CPU profile: " ++ e)) ∧
    ((Enabled.StartProfilers rt cfg State.empty).err ≠ none →
      ∃ w e, cfg.CPUProfileWriter = some w ∧ rt.startCPUProfile w = some e) := by
  have key : ops ((Enabled.StartProfilers rt cfg State.empty).trace ++
        (Enabled.StopProfilers rt2 (Enabled.StartProfilers rt cfg State.empty).state).trace) =
      cfg.CPUProfileWriter.elim [] (fun w => [Event.startCPUProfile w]) ++
      cfg.CPUProfileWriter.elim []
        (fun w => if rt.startCPUProfile w = none then [Event.stopCPUProfile] else []) ++
      cfg.HeapProfileWriter.elim [] (fun w => [Event.gc, Event.writeHeapProfile w]) ++
      cfg.GoroutineProfileWriter.elim [] (fun w => [Event.writeGoroutineProfile w]) := by
    rw [ops_append, Enabled.StartProfilers_ops, Enabled.StopProfilers_ops]
    cases hc : cfg.CPUProfileWriter with
    | none => rw [Enabled.StartProfilers_state_of_absent rt cfg _ hc]; simp
    | some w =>
      cases hs : rt.startCPUProfile w with
      | none => rw [Enabled.StartProfilers_state_of_started rt cfg _ w hc hs]; simp [hs]
      | some e => rw [Enabled.StartProfilers_state_of_fail rt cfg _ w e hc hs]; simp [hs]
  refine ⟨key, ?_, ?_, ?_, ?_, ?_⟩
  · intro hc
    refine ⟨by simp [Enabled.StartProfilers, Enabled.startTail, hc], ?_⟩
    intro e he
    refine ⟨?_, ?_⟩
    · rintro rfl
      have hm := (mem_ops _ _).2 ⟨he, rfl⟩
      rw [key, hc] at hm
      cases hh : cfg.HeapProfileWriter <;> cases hg : cfg.GoroutineProfileWriter <;>
        simp [hh, hg] at hm
    · rintro w rfl
      have hm := (mem_ops _ _).2 ⟨he, rfl⟩
      rw [key, hc] at hm
      cases hh : cfg.HeapProfileWriter <;> cases hg : cfg.GoroutineProfileWriter <;>
        simp [hh, hg] at hm
  · intro hh e he
    refine ⟨?_, ?_⟩
    · rintro rfl
      have hm := (mem_ops _ _).2 ⟨he, rfl⟩
      rw [key, hh] at hm
      cases hc : cfg.CPUProfileWriter <;> cases hg : cfg.GoroutineProfileWriter <;>
        simp [hc, hg] at hm
    · rintro w rfl
      have hm := (mem_ops _ _).2 ⟨he, rfl⟩
      rw [key, hh] at hm
      cases hc : cfg.CPUProfileWriter <;> cases hg : cfg.GoroutineProfileWriter <;>
        simp [hc, hg] at hm
  · rintro hg e he w rfl
    have hm := (mem_ops _ _).2 ⟨he, rfl⟩
    rw [key, hg] at hm
    cases hc : cfg.CPUProfileWriter <;> cases hh : cfg.HeapProfileWriter <;>
      simp [hc, hh] at hm
  · cases hc : cfg.CPUProfileWriter with
    | none => simp [Enabled.StartProfilers, Enabled.startTail, hc]
    | some w =>
      cases hs : rt.startCPUProfile w <;>
        simp [Enabled.StartProfilers, Enabled.startTail, hc, hs]
  · cases hc : cfg.CPUProfileWriter with
    | none => simp [Enabled.StartProfilers, Enabled.startTail, hc]
    | some w =>
      cases hs : rt.startCPUProfile w <;>
        simp [Enabled.StartProfilers, Enabled.startTail, hc, hs]

/-- Witness for C5: the scenario of the specification, CPU and goroutine requested and heap
left out. The heap kind sees no operation, and `StartProfilers` returns `nil` although the
heap destination is absent. -/
theorem absent_kinds_untouched_witness :
    cfgNoHeap.HeapProfileWriter = none ∧
    (∀ e ∈ (Enabled.StartProfilers rtFine cfgNoHeap State.empty).trace ++
        (Enabled.StopProfilers rtFine
          (Enabled.StartProfilers rtFine cfgNoHeap State.empty).state).trace,
      e ≠ Event.gc ∧ ∀ w, e ≠ Event.writeHeapProfile w) ∧
    (Enabled.StartProfilers rtFine cfgNoHeap State.empty).err = none :=
  ⟨rfl, (absent_kinds_untouched rtFine rtFine cfgNoHeap).2.2.1 rfl,
    (absent_kinds_untouched rtFine rtFine cfgNoHeap).2.2.2.2.1.trans rfl⟩

/-! ## Claims about the disabled controller -/

/-- C8: for every `Config` and every state, the disabled `StartProfilers` returns `nil`
and the disabled `StartProfilers` and `StopProfilers` each only print one log line: they
perform no runtime operation and no write, mention no destination, and leave the state as
it was. -/
theorem disabled_variant_is_noop (cfg : Config) (st : State) :
    (Disabled.StartProfilers cfg st).err = none ∧
    ops (Disabled.StartProfilers cfg st).trace = [] ∧
    (Disabled.StartProfilers cfg st).trace =
      [Event.log (packageName ++ ": Profiling disabled: Skipping profiler setup.")] ∧
    (Disabled.StartProfilers cfg st).state = st ∧
    ops (Disabled.StopProfilers st).trace = [] ∧
    (Disabled.StopProfilers st).trace =
      [Event.log (packageName ++ ": Profiling disabled: Skipping profiler teardown.")] ∧
    (Disabled.StopProfilers st).state = st :=
  ⟨rfl, ops_log _, rfl, rfl, ops_log _, rfl, rfl⟩

/-! ## Destinations: `CloseAll` -/

theorem ops_map_log (f : String → String) (l : List String) :
    ops (l.map (fun e => Event.log (f e))) = [] := by
  induction l with
  | nil => rfl
  | cons a l ih =>
    simp only [ops] at ih
    simp [ops, Event.isLog, ih]

theorem closeWriter_ops (closeRes : Kind → Writer → GoError) (k : Kind) (w : Option Writer)
    (acc : CloseAcc) :
    ops (closeWriter closeRes k w acc).trace =
      ops acc.trace ++ ((w.toList.filter Writer.isCloser).map Event.close) := by
  rcases w with _ | x
  · simp [closeWriter]
  · cases hx : x.isCloser
    · simp [closeWriter, hx]
    · cases hr : closeRes k x <;> simp [closeWriter, hx, hr, ops, Event.isLog]

/-- C9: whatever the outcome of each individual `Close`, the `Close` calls made by
`CloseAll` are exactly one call for each field, taken in the order CPU, heap, goroutine,
that is non-nil and implements `io.Closer`, and no other call; `CloseAll` performs no other
operation than these and its log lines, and being a total function without result it
raises nothing. -/
theorem closeAll_closes_every_closer_once (closeRes : Kind → Writer → GoError) (c : Config) :
    ops (c.CloseAll closeRes) =
      ((([c.CPUProfileWriter, c.HeapProfileWriter, c.GoroutineProfileWriter].filterMap id).filter
        Writer.isCloser).map Event.close) := by
  unfold Config.CloseAll
  simp only [ops_append, ops_map_log, closeWriter_ops, ops_log, List.append_nil,
    List.nil_append]
  rcases c with ⟨a, b, d⟩
  cases a <;> cases b <;> cases d <;> simp [List.filter_cons] <;> split_ifs <;> simp

/-! ## Destinations: `NewConfigFromPaths` -/

/-- C7: for every triple of paths and every outcome of `os.Create`, `NewConfigFromPaths`
never panics, and if creating the file of kind `k` fails (kinds taken in the order CPU,
heap, goroutine, the earlier ones not having failed) it returns a non-nil error with the
zero `Config`, after a trace that consists of the creations up to the failing one followed
by exactly one `Close` for each file opened for an earlier kind: no later file is created
and no opened file is left unclosed. Whenever an error is returned the `Config` is the
zero value, and when none is returned every non-empty path has its file in the `Config`. -/
theorem newConfig_rolls_back_on_failure (osCreate : Kind → String → Except String File)
    (cpuPath heapPath goroutinePath : String) :
    (NewConfigFromPaths osCreate cpuPath heapPath goroutinePath).panicked = false ∧
    (createFails osCreate Kind.cpu cpuPath = true →
      (NewConfigFromPaths osCreate cpuPath heapPath goroutinePath).err ≠ none ∧
      (NewConfigFromPaths osCreate cpuPath heapPath goroutinePath).cfg = Config.zero ∧
      (NewConfigFromPaths osCreate cpuPath heapPath goroutinePath).trace =
        [Event.osCreate cpuPath]) ∧
    (createFails osCreate Kind.cpu cpuPath = false →
      createFails osCreate Kind.heap heapPath = true →
      (NewConfigFromPaths osCreate cpuPath heapPath goroutinePath).err ≠ none ∧
      (NewConfigFromPaths osCreate cpuPath heapPath goroutinePath).cfg = Config.zero ∧
      (NewConfigFromPaths osCreate cpuPath heapPath goroutinePath).trace =
        createAttempt cpuPath ++ [Event.osCreate heapPath] ++
        closeOpened (openedFile osCreate Kind.cpu cpuPath)) ∧
    (createFails osCreate Kind.cpu cpuPath = false →
      createFails osCreate Kind.heap heapPath = false →
      createFails osCreate Kind.goroutine goroutinePath = true →
      (NewConfigFromPaths osCreate cpuPath heapPath goroutinePath).err ≠ none ∧
      (NewConfigFromPaths osCreate cpuPath heapPath goroutinePath).cfg = Config.zero ∧
      (NewConfigFromPaths osCreate cpuPath heapPath goroutinePath).trace =
        createAttempt cpuPath ++ createAttempt heapPath ++ [Event.osCreate goroutinePath] ++
        closeOpened (openedFile osCreate Kind.cpu cpuPath) ++
        closeOpened (openedFile osCreate Kind.heap heapPath)) ∧
    ((NewConfigFromPaths osCreate cpuPath heapPath goroutinePath).err ≠ none →
      (NewConfigFromPaths osCreate cpuPath heapPath goroutinePath).cfg = Config.zero) ∧
    ((NewConfigFromPaths osCreate cpuPath heapPath goroutinePath).err = none →
      (NewConfigFromPaths osCreate cpuPath heapPath goroutinePath).cfg =
        { CPUProfileWriter := (openedFile osCreate Kind.cpu cpuPath).map Writer.osFile
          HeapProfileWriter := (openedFile osCreate Kind.heap heapPath).map Writer.osFile
          GoroutineProfileWriter :=
            (openedFile osCreate Kind.goroutine goroutinePath).map Writer.osFile } ∧
      createFails osCreate Kind.cpu cpuPath = false ∧
      createFails osCreate Kind.heap heapPath = false ∧
      createFails osCreate Kind.goroutine goroutinePath = false) := by
  by_cases h1 : cpuPath = "" <;> by_cases h2 : heapPath = "" <;>
    by_cases h3 : goroutinePath = "" <;>
    cases o1 : osCreate Kind.cpu cpuPath <;>
    cases o2 : osCreate Kind.heap heapPath <;>
    cases o3 : osCreate Kind.goroutine goroutinePath <;>
    simp [NewConfigFromPaths, createAndAssign, rollbackClose, Config.set, Config.zero,
      Writer.isCloser, createFails, openedFile, createAttempt, closeOpened, h1, h2, h3,
      o1, o2, o3]

/-- Witness for C7: three requested paths, the second in a directory that is not
writable; the CPU file, already created, is closed before the error is returned. -/
theorem newConfig_rolls_back_on_failure_witness :
    createFails osHeapUnwritable Kind.cpu "/tmp/cpu.prof" = false ∧
    createFails osHeapUnwritable Kind.heap "/readonly/heap.prof" = true ∧
    (NewConfigFromPaths osHeapUnwritable "/tmp/cpu.prof" "/readonly/heap.prof"
      "/tmp/goroutine.prof").err ≠ none ∧
    (NewConfigFromPaths osHeapUnwritable "/tmp/cpu.prof" "/readonly/heap.prof"
      "/tmp/goroutine.prof").cfg = Config.zero ∧
    (NewConfigFromPaths osHeapUnwritable "/tmp/cpu.prof" "/readonly/heap.prof"
      "/tmp/goroutine.prof").trace =
      createAttempt "/tmp/cpu.prof" ++ [Event.osCreate "/readonly/heap.prof"] ++
      closeOpened (openedFile osHeapUnwritable Kind.cpu "/tmp/cpu.prof") :=
  ⟨by decide, by decide,
    (newConfig_rolls_back_on_failure osHeapUnwritable "/tmp/cpu.prof" "/readonly/heap.prof"
      "/tmp/goroutine.prof").2.2.1 (by decide) (by decide)⟩

end Profilingutil
